import Mathlib

/-!
Shallow embedding of the NPCM7xx timer controller model
(hw/timer/npcm7xx_timer.c) and proofs about its register-level behavior.

Machine integers are embedded as follows: 32-bit device registers are Nat
values kept below 2^32 by the operations themselves (masking with 32-bit
constants); the int64_t nanosecond quantities (virtual-clock timestamps,
remaining durations) are Int, since the C code relies on them not
overflowing; the C conversion of a signed 64-bit value to uint32_t is
reduction modulo 2^32.  C integer division on int64_t truncates toward
zero, which is Int.tdiv.

The QEMU timer subsystem (qemu_clock_get_ns / timer_mod / timer_del) is
embedded by passing the current virtual-clock time explicitly as a
parameter and by keeping, per channel, a Bool recording whether the
deferred callback is currently armed.  qemu_set_irq on a channel's
interrupt line is embedded as a Bool per channel recording the current
level of the line.
-/

/-- Number of nanoseconds per second (NANOSECONDS_PER_SECOND). -/
def NANOSECONDS_PER_SECOND : Nat := 1000000000

/-- Modelled from the spec: the fixed logical reference-clock frequency
NPCM7XX_TIMER_REF_HZ, defined in the device header which is not part of
the sources here. The spec fixes a single design-time reference frequency;
the concrete 25 MHz value matches the NPCM7xx reference clock. None of the
theorems below depend on the particular value. -/
def NPCM7XX_TIMER_REF_HZ : Nat := 25000000

/-- Number of timer channels per controller (NPCM7XX_TIMERS_PER_CTRL);
the spec fixes five channels per controller instance. -/
def NPCM7XX_TIMERS_PER_CTRL : Nat := 5

/-- Counter-enable bit of TCSR, BIT(30). -/
def NPCM7XX_TCSR_CEN : Nat := 2 ^ 30

/-- Interrupt-enable bit of TCSR, BIT(29). -/
def NPCM7XX_TCSR_IE : Nat := 2 ^ 29

/-- Periodic-mode bit of TCSR, BIT(27). -/
def NPCM7XX_TCSR_PERIODIC : Nat := 2 ^ 27

/-- Counter-reset request bit of TCSR, BIT(26). -/
def NPCM7XX_TCSR_CRST : Nat := 2 ^ 26

/-- Counter-active (read-only) bit of TCSR, BIT(25). -/
def NPCM7XX_TCSR_CACT : Nat := 2 ^ 25

/-- Reserved bits of TCSR. -/
def NPCM7XX_TCSR_RSVD : Nat := 0x21ffff00

/-- Bitwise complement of a mask within a 32-bit word, as produced by the
C operator on a uint32_t operand. -/
def compl32 (m : Nat) : Nat := 0xffffffff ^^^ m

/-- Conversion of a signed 64-bit integer value to uint32_t: reduction
modulo 2^32 (Int.emod is never negative for a positive modulus). -/
def int64_to_uint32 (i : Int) : Nat := (Int.emod i (2 ^ 32)).toNat

/-- State of one timer channel (struct NPCM7xxTimer): the TCSR and TICR
registers, the cached absolute deadline and remaining duration in
nanoseconds, whether the QEMU timer callback is armed (timer_mod without a
subsequent timer_del or expiry), and the current level of the channel's
interrupt line. -/
structure NPCM7xxTimer where
  tcsr : Nat
  ticr : Nat
  expires_ns : Int
  remaining_ns : Int
  qtimerArmed : Bool
  irqLevel : Bool
deriving Repr, DecidableEq

/-- State of the timer controller (struct NPCM7xxTimerCtrlState): five
channels, the aggregate interrupt-status register TISR and the watchdog
control register WTCR. -/
structure NPCM7xxTimerCtrlState where
  timer : Fin 5 → NPCM7xxTimer
  tisr : Nat
  wtcr : Nat

/-- Replace channel i of the controller state. -/
def setTimer (s : NPCM7xxTimerCtrlState) (i : Fin 5) (t : NPCM7xxTimer) :
    NPCM7xxTimerCtrlState :=
  { s with timer := Function.update s.timer i t }

/-- Effective prescaler divisor: low 8 bits of TCSR plus one
(npcm7xx_timer_prescaler). -/
def npcm7xx_timer_prescaler (t : NPCM7xxTimer) : Nat :=
  (t.tcsr &&& 0xff) + 1

/-- Convert a cycle count to nanoseconds (npcm7xx_timer_count_to_ns). -/
def npcm7xx_timer_count_to_ns (t : NPCM7xxTimer) (count : Nat) : Int :=
  (count : Int) * ((NANOSECONDS_PER_SECOND / NPCM7XX_TIMER_REF_HZ : Nat) : Int)
    * ((npcm7xx_timer_prescaler t : Nat) : Int)

/-- Convert a nanosecond interval to a cycle count
(npcm7xx_timer_ns_to_count); the C divisions on int64_t truncate toward
zero and the result is converted to uint32_t. -/
def npcm7xx_timer_ns_to_count (t : NPCM7xxTimer) (ns : Int) : Nat :=
  int64_to_uint32
    (Int.tdiv (Int.tdiv ns ((NANOSECONDS_PER_SECOND / NPCM7XX_TIMER_REF_HZ : Nat) : Int))
      ((npcm7xx_timer_prescaler t : Nat) : Int))

/-- Recompute channel i's interrupt line (npcm7xx_timer_check_interrupt):
the line is raised when the interrupt-enable bit of the channel's TCSR and
the channel's bit of TISR are both set, lowered otherwise. -/
def npcm7xx_timer_check_interrupt (s : NPCM7xxTimerCtrlState) (i : Fin 5) :
    NPCM7xxTimerCtrlState :=
  let t := s.timer i
  let pending := (t.tcsr &&& NPCM7XX_TCSR_IE != 0) && (s.tisr &&& (1 <<< i.val) != 0)
  setTimer s i { t with irqLevel := pending }

/-- Start or resume channel i (npcm7xx_timer_start): the deadline becomes
now plus the remaining duration, and the callback is armed (timer_mod). -/
def npcm7xx_timer_start (s : NPCM7xxTimerCtrlState) (i : Fin 5) (now : Int) :
    NPCM7xxTimerCtrlState :=
  let t := s.timer i
  setTimer s i { t with expires_ns := now + t.remaining_ns, qtimerArmed := true }

/-- Stop counting on channel i (npcm7xx_timer_pause): cancel the callback
(timer_del) and record the remaining time.  The C code asserts that the
recorded remaining time is strictly positive; that assertion is stated
separately as a hypothesis where relevant. -/
def npcm7xx_timer_pause (s : NPCM7xxTimerCtrlState) (i : Fin 5) (now : Int) :
    NPCM7xxTimerCtrlState :=
  let t := s.timer i
  setTimer s i { t with qtimerArmed := false, remaining_ns := t.expires_ns - now }

/-- Channel i reached zero (npcm7xx_timer_reached_zero): set the channel's
TISR bit; in periodic mode reload the remaining duration from TICR and
restart if the counter is still enabled, otherwise clear the enable and
counter-active bits; finally recompute the interrupt line. -/
def npcm7xx_timer_reached_zero (s : NPCM7xxTimerCtrlState) (i : Fin 5) (now : Int) :
    NPCM7xxTimerCtrlState :=
  let s1 := { s with tisr := s.tisr ||| (1 <<< i.val) }
  let t := s1.timer i
  let s2 :=
    if t.tcsr &&& NPCM7XX_TCSR_PERIODIC != 0 then
      let s2a := setTimer s1 i { t with remaining_ns := npcm7xx_timer_count_to_ns t t.ticr }
      if t.tcsr &&& NPCM7XX_TCSR_CEN != 0 then npcm7xx_timer_start s2a i now else s2a
    else
      setTimer s1 i
        { t with tcsr := t.tcsr &&& compl32 (NPCM7XX_TCSR_CEN ||| NPCM7XX_TCSR_CACT) }
  npcm7xx_timer_check_interrupt s2 i

/-- Restart channel i from its initial count (npcm7xx_timer_restart): the
remaining duration is reloaded from TICR; if the timer was enabled before
the triggering write and is still enabled, it is restarted immediately,
otherwise starting is left to the caller. -/
def npcm7xx_timer_restart (s : NPCM7xxTimerCtrlState) (i : Fin 5) (old_tcsr : Nat)
    (now : Int) : NPCM7xxTimerCtrlState :=
  let t := s.timer i
  let s1 := setTimer s i { t with remaining_ns := npcm7xx_timer_count_to_ns t t.ticr }
  if old_tcsr &&& t.tcsr &&& NPCM7XX_TCSR_CEN != 0 then
    npcm7xx_timer_start s1 i now
  else
    s1

/-- Write to channel i's TCSR register (npcm7xx_timer_write_tcsr):
reserved bits and the read-only CACT bit are masked from the incoming
value (with a logged guest error); the stored CACT bit is preserved; an
interrupt-enable flip recomputes the line; a set CRST bit triggers a
restart and then auto-clears; a counter-enable flip starts or pauses the
channel. -/
def npcm7xx_timer_write_tcsr (s : NPCM7xxTimerCtrlState) (i : Fin 5)
    (new_tcsr : Nat) (now : Int) : NPCM7xxTimerCtrlState :=
  let t := s.timer i
  let old_tcsr := t.tcsr
  let new1 := if new_tcsr &&& NPCM7XX_TCSR_RSVD != 0
              then new_tcsr &&& compl32 NPCM7XX_TCSR_RSVD else new_tcsr
  let new2 := if new1 &&& NPCM7XX_TCSR_CACT != 0
              then new1 &&& compl32 NPCM7XX_TCSR_CACT else new1
  let s1 := setTimer s i { t with tcsr := (old_tcsr &&& NPCM7XX_TCSR_CACT) ||| new2 }
  let s2 := if (old_tcsr ^^^ new2) &&& NPCM7XX_TCSR_IE != 0
            then npcm7xx_timer_check_interrupt s1 i else s1
  let s3 :=
    if new2 &&& NPCM7XX_TCSR_CRST != 0 then
      let s3a := npcm7xx_timer_restart s2 i old_tcsr now
      let t3 := s3a.timer i
      setTimer s3a i { t3 with tcsr := t3.tcsr &&& compl32 NPCM7XX_TCSR_CRST }
    else
      s2
  if (old_tcsr ^^^ new2) &&& NPCM7XX_TCSR_CEN != 0 then
    if new2 &&& NPCM7XX_TCSR_CEN != 0 then
      npcm7xx_timer_start s3 i now
    else
      npcm7xx_timer_pause s3 i now
  else
    s3

/-- Write to channel i's TICR register (npcm7xx_timer_write_ticr): store
the new initial count, then restart from it. -/
def npcm7xx_timer_write_ticr (s : NPCM7xxTimerCtrlState) (i : Fin 5)
    (new_ticr : Nat) (now : Int) : NPCM7xxTimerCtrlState :=
  let t := s.timer i
  let s1 := setTimer s i { t with ticr := new_ticr }
  npcm7xx_timer_restart s1 i (s1.timer i).tcsr now

/-- Read channel i's TDR register (npcm7xx_timer_read_tdr): while the
counter is enabled the count is computed live from the deadline and the
current time, otherwise from the stored remaining duration. -/
def npcm7xx_timer_read_tdr (s : NPCM7xxTimerCtrlState) (i : Fin 5) (now : Int) : Nat :=
  let t := s.timer i
  if t.tcsr &&& NPCM7XX_TCSR_CEN != 0 then
    npcm7xx_timer_ns_to_count t (t.expires_ns - now)
  else
    npcm7xx_timer_ns_to_count t t.remaining_ns

/-- Map a TCSR register index to its channel (npcm7xx_tcsr_index).  The C
default branch is g_assert_not_reached; it is mapped to channel 0 and is
never taken by the dispatcher. -/
def npcm7xx_tcsr_index (reg : Nat) : Fin 5 :=
  match reg with
  | 0 => 0
  | 1 => 1
  | 8 => 2
  | 9 => 3
  | 16 => 4
  | _ => 0

/-- Map a TICR register index to its channel (npcm7xx_ticr_index). -/
def npcm7xx_ticr_index (reg : Nat) : Fin 5 :=
  match reg with
  | 2 => 0
  | 3 => 1
  | 10 => 2
  | 11 => 3
  | 18 => 4
  | _ => 0

/-- Map a TDR register index to its channel (npcm7xx_tdr_index). -/
def npcm7xx_tdr_index (reg : Nat) : Fin 5 :=
  match reg with
  | 4 => 0
  | 5 => 1
  | 12 => 2
  | 13 => 3
  | 20 => 4
  | _ => 0

/-- MMIO read dispatcher (npcm7xx_timer_read).  The returned pair is the
value read and the controller state after the read; the C handler never
writes to the state, which the translation makes explicit by returning the
incoming state in every branch.  Unmapped offsets read as zero with a
logged guest error. -/
def npcm7xx_timer_read (s : NPCM7xxTimerCtrlState) (offset : Nat) (now : Int) :
    Nat × NPCM7xxTimerCtrlState :=
  let reg := offset / 4
  match reg with
  | 0 | 1 | 8 | 9 | 16 => ((s.timer (npcm7xx_tcsr_index reg)).tcsr, s)
  | 2 | 3 | 10 | 11 | 18 => ((s.timer (npcm7xx_ticr_index reg)).ticr, s)
  | 4 | 5 | 12 | 13 | 20 => (npcm7xx_timer_read_tdr s (npcm7xx_tdr_index reg) now, s)
  | 6 => (s.tisr, s)
  | 7 => (s.wtcr, s)
  | _ => (0, s)

/-- MMIO write dispatcher (npcm7xx_timer_write).  The incoming 64-bit
value is truncated to 32 bits.  TDR writes are rejected as read-only, a
TISR write clears the status bits set in the value, a WTCR write is logged
as unimplemented and has no effect, unmapped offsets are logged and have
no effect. -/
def npcm7xx_timer_write (s : NPCM7xxTimerCtrlState) (offset : Nat) (v : Nat)
    (now : Int) : NPCM7xxTimerCtrlState :=
  let reg := offset / 4
  let value := v % 2 ^ 32
  match reg with
  | 0 | 1 | 8 | 9 | 16 => npcm7xx_timer_write_tcsr s (npcm7xx_tcsr_index reg) value now
  | 2 | 3 | 10 | 11 | 18 => npcm7xx_timer_write_ticr s (npcm7xx_ticr_index reg) value now
  | 4 | 5 | 12 | 13 | 20 => s
  | 6 => { s with tisr := s.tisr &&& compl32 value }
  | 7 => s
  | _ => s

/-- QEMU timer callback for channel i (npcm7xx_timer_expired): only acts
when the counter-enable bit is set. -/
def npcm7xx_timer_expired (s : NPCM7xxTimerCtrlState) (i : Fin 5) (now : Int) :
    NPCM7xxTimerCtrlState :=
  if (s.timer i).tcsr &&& NPCM7XX_TCSR_CEN != 0 then
    npcm7xx_timer_reached_zero s i now
  else
    s

/-- Disarm channel i's QEMU timer.  When an armed one-shot QEMU timer
fires, the timer subsystem removes it from the pending list before running
the callback; this models that removal. -/
def disarmTimer (s : NPCM7xxTimerCtrlState) (i : Fin 5) : NPCM7xxTimerCtrlState :=
  let t := s.timer i
  setTimer s i { t with qtimerArmed := false }

/-- Reset-entry phase (npcm7xx_timer_enter_reset): every channel's QEMU
timer is cancelled and its registers take their documented reset values;
the shared TISR and WTCR registers are reset. -/
def npcm7xx_timer_enter_reset (s : NPCM7xxTimerCtrlState) : NPCM7xxTimerCtrlState :=
  { s with
    timer := fun i =>
      { s.timer i with
        qtimerArmed := false
        expires_ns := 0
        remaining_ns := 0
        tcsr := 0x00000005
        ticr := 0x00000000 }
    tisr := 0x00000000
    wtcr := 0x00000400 }

/-- Reset-hold phase (npcm7xx_timer_hold_reset): every channel's
interrupt line is lowered. -/
def npcm7xx_timer_hold_reset (s : NPCM7xxTimerCtrlState) : NPCM7xxTimerCtrlState :=
  { s with timer := fun i => { s.timer i with irqLevel := false } }

/-- Zero-initialized controller state, as after instance allocation. -/
def npcm7xx_timer_zero_state : NPCM7xxTimerCtrlState :=
  { timer := fun _ =>
      { tcsr := 0, ticr := 0, expires_ns := 0, remaining_ns := 0,
        qtimerArmed := false, irqLevel := false }
    tisr := 0
    wtcr := 0 }

/-- Controller state after a full device reset (enter then hold phase). -/
def npcm7xx_timer_reset_state : NPCM7xxTimerCtrlState :=
  npcm7xx_timer_hold_reset (npcm7xx_timer_enter_reset npcm7xx_timer_zero_state)

/-- Reachable controller states: the reset state, followed by any
sequence of guest MMIO writes (at arbitrary offsets, with arbitrary values
and at arbitrary virtual-clock times) and deliveries of the QEMU timer
callback for channels whose timer is armed (the timer subsystem disarms a
one-shot timer before running its callback).  MMIO reads do not change the
state and need no step.  This over-approximates the real reachable set:
it also admits runs on which a g_assert in npcm7xx_timer_pause would have
failed, so invariants proved over it hold a fortiori of the real model. -/
inductive npcm7xx_timer_reachable : NPCM7xxTimerCtrlState → Prop where
  | reset : npcm7xx_timer_reachable npcm7xx_timer_reset_state
  | mmio_write {s : NPCM7xxTimerCtrlState} (offset v : Nat) (now : Int) :
      npcm7xx_timer_reachable s →
      npcm7xx_timer_reachable (npcm7xx_timer_write s offset v now)
  | timer_fired {s : NPCM7xxTimerCtrlState} (i : Fin 5) (now : Int) :
      npcm7xx_timer_reachable s →
      (s.timer i).qtimerArmed = true →
      npcm7xx_timer_reachable (npcm7xx_timer_expired (disarmTimer s i) i now)

/-- Testing a single-bit mask is testing the bit. -/
theorem land_two_pow_eq_zero_iff (x n : Nat) : x &&& 2 ^ n = 0 ↔ x.testBit n = false := by
  rw [Nat.and_two_pow]
  simp

@[simp]
theorem setTimer_timer (s : NPCM7xxTimerCtrlState) (i : Fin 5) (t : NPCM7xxTimer)
    (j : Fin 5) : (setTimer s i t).timer j = if j = i then t else s.timer j := by
  simp [setTimer, Function.update_apply]

@[simp]
theorem setTimer_tisr (s : NPCM7xxTimerCtrlState) (i : Fin 5) (t : NPCM7xxTimer) :
    (setTimer s i t).tisr = s.tisr := rfl

@[simp]
theorem setTimer_wtcr (s : NPCM7xxTimerCtrlState) (i : Fin 5) (t : NPCM7xxTimer) :
    (setTimer s i t).wtcr = s.wtcr := rfl

theorem tcsr_check_interrupt (s : NPCM7xxTimerCtrlState) (i j : Fin 5) :
    ((npcm7xx_timer_check_interrupt s i).timer j).tcsr = (s.timer j).tcsr := by
  by_cases h : j = i <;> simp [npcm7xx_timer_check_interrupt, h]

theorem tcsr_start (s : NPCM7xxTimerCtrlState) (i j : Fin 5) (now : Int) :
    ((npcm7xx_timer_start s i now).timer j).tcsr = (s.timer j).tcsr := by
  by_cases h : j = i <;> simp [npcm7xx_timer_start, h]

theorem tcsr_pause (s : NPCM7xxTimerCtrlState) (i j : Fin 5) (now : Int) :
    ((npcm7xx_timer_pause s i now).timer j).tcsr = (s.timer j).tcsr := by
  by_cases h : j = i <;> simp [npcm7xx_timer_pause, h]

theorem tcsr_restart (s : NPCM7xxTimerCtrlState) (i j : Fin 5) (old_tcsr : Nat)
    (now : Int) :
    ((npcm7xx_timer_restart s i old_tcsr now).timer j).tcsr = (s.timer j).tcsr := by
  simp only [npcm7xx_timer_restart]
  split
  · rw [tcsr_start]
    by_cases h : j = i <;> simp [h]
  · by_cases h : j = i <;> simp [h]

/-- Closed form of the TCSR value stored by npcm7xx_timer_write_tcsr for
the written channel (a proof-side restatement, shown equal to the
translation below). -/
def npcm7xx_tcsr_stored (old v : Nat) : Nat :=
  let new1 := if v &&& NPCM7XX_TCSR_RSVD != 0 then v &&& compl32 NPCM7XX_TCSR_RSVD else v
  let new2 := if new1 &&& NPCM7XX_TCSR_CACT != 0
              then new1 &&& compl32 NPCM7XX_TCSR_CACT else new1
  let stored := (old &&& NPCM7XX_TCSR_CACT) ||| new2
  if new2 &&& NPCM7XX_TCSR_CRST != 0 then stored &&& compl32 NPCM7XX_TCSR_CRST else stored

/-- The TCSR register after a TCSR write: channel i holds the closed-form
stored value, other channels are untouched. -/
theorem tcsr_write_tcsr (s : NPCM7xxTimerCtrlState) (i j : Fin 5) (v : Nat)
    (now : Int) :
    ((npcm7xx_timer_write_tcsr s i v now).timer j).tcsr =
      if j = i then npcm7xx_tcsr_stored (s.timer i).tcsr v else (s.timer j).tcsr := by
  simp only [npcm7xx_timer_write_tcsr, npcm7xx_tcsr_stored]
  split_ifs with h1 h2 h3 h4 h5 h6 <;>
    simp_all [tcsr_start, tcsr_pause, tcsr_restart, tcsr_check_interrupt]

theorem cact_land_eq_zero_iff (x : Nat) :
    x &&& NPCM7XX_TCSR_CACT = 0 ↔ x.testBit 25 = false := by
  rw [show NPCM7XX_TCSR_CACT = 2 ^ 25 from rfl]
  exact land_two_pow_eq_zero_iff x 25

theorem cact_testBit_25 : NPCM7XX_TCSR_CACT.testBit 25 = true := by decide

theorem compl32_cact_testBit_25 : (compl32 NPCM7XX_TCSR_CACT).testBit 25 = false := by
  decide

theorem compl32_rsvd_testBit_25 : (compl32 NPCM7XX_TCSR_RSVD).testBit 25 = true := by
  decide

theorem compl32_crst_testBit_25 : (compl32 NPCM7XX_TCSR_CRST).testBit 25 = true := by
  decide

theorem compl32_cen_cact_testBit_25 :
    (compl32 (NPCM7XX_TCSR_CEN ||| NPCM7XX_TCSR_CACT)).testBit 25 = false := by decide

/-- Writing TCSR never changes the stored CACT bit of any channel: the
incoming value has CACT masked out and the prior CACT bit is preserved
explicitly. -/
theorem stored_cact_bit (old v : Nat) :
    (npcm7xx_tcsr_stored old v).testBit 25 = old.testBit 25 := by
  simp only [npcm7xx_tcsr_stored]
  split_ifs with h1 h2 h3 <;>
    simp_all [cact_land_eq_zero_iff, Nat.testBit_lor, Nat.testBit_land,
      cact_testBit_25, compl32_cact_testBit_25, compl32_rsvd_testBit_25,
      compl32_crst_testBit_25]

theorem write_tcsr_cact_bit (s : NPCM7xxTimerCtrlState) (i j : Fin 5) (v : Nat)
    (now : Int) :
    ((npcm7xx_timer_write_tcsr s i v now).timer j).tcsr.testBit 25
      = ((s.timer j).tcsr).testBit 25 := by
  rw [tcsr_write_tcsr]
  by_cases hj : j = i
  · subst hj
    simp [stored_cact_bit]
  · simp [hj]

theorem tcsr_write_ticr (s : NPCM7xxTimerCtrlState) (i j : Fin 5) (v : Nat)
    (now : Int) :
    ((npcm7xx_timer_write_ticr s i v now).timer j).tcsr = (s.timer j).tcsr := by
  simp only [npcm7xx_timer_write_ticr]
  rw [tcsr_restart]
  by_cases h : j = i <;> simp [h]

theorem tcsr_disarm (s : NPCM7xxTimerCtrlState) (i j : Fin 5) :
    ((disarmTimer s i).timer j).tcsr = (s.timer j).tcsr := by
  by_cases h : j = i <;> simp [disarmTimer, h]

theorem reached_zero_cact_bit (s : NPCM7xxTimerCtrlState) (i j : Fin 5) (now : Int)
    (h : ((s.timer j).tcsr).testBit 25 = false) :
    ((npcm7xx_timer_reached_zero s i now).timer j).tcsr.testBit 25 = false := by
  simp only [npcm7xx_timer_reached_zero]
  rw [tcsr_check_interrupt]
  split
  · split
    · rw [tcsr_start]
      by_cases hj : j = i <;> simp_all
    · by_cases hj : j = i <;> simp_all
  · by_cases hj : j = i <;>
      simp_all [Nat.testBit_land, compl32_cen_cact_testBit_25]

theorem expired_cact_bit (s : NPCM7xxTimerCtrlState) (i j : Fin 5) (now : Int)
    (h : ((s.timer j).tcsr).testBit 25 = false) :
    ((npcm7xx_timer_expired s i now).timer j).tcsr.testBit 25 = false := by
  simp only [npcm7xx_timer_expired]
  split
  · exact reached_zero_cact_bit s i j now h
  · exact h

theorem write_cact_bit (s : NPCM7xxTimerCtrlState) (offset v : Nat) (now : Int)
    (j : Fin 5) (h : ((s.timer j).tcsr).testBit 25 = false) :
    ((npcm7xx_timer_write s offset v now).timer j).tcsr.testBit 25 = false := by
  simp only [npcm7xx_timer_write]
  split
  all_goals
    first
    | (rw [write_tcsr_cact_bit]; exact h)
    | (rw [tcsr_write_ticr]; exact h)
    | exact h

/-- CACT is clear on every channel in every reachable state: the model
never sets the counter-active bit. -/
theorem reachable_cact_clear (s : NPCM7xxTimerCtrlState)
    (h : npcm7xx_timer_reachable s) :
    ∀ j : Fin 5, ((s.timer j).tcsr).testBit 25 = false := by
  induction h with
  | reset =>
      intro j
      show Nat.testBit 5 25 = false
      decide
  | mmio_write offset v now _ ih =>
      intro j
      exact write_cact_bit _ offset v now j (ih j)
  | timer_fired i now _ _ ih =>
      intro j
      apply expired_cact_bit
      rw [tcsr_disarm]
      exact ih j

/-- C2 counterexample: in the reachable state obtained by enabling channel
0 right after reset (one MMIO write of the counter-enable bit to TCSR0 at
virtual time 0), the clock-source callback is armed while the read-only
counter-active bit CACT is clear, so CACT does not mirror the armed state
as the claim requires. -/
theorem npcm7xx_timer_cact_armed_mismatch :
    npcm7xx_timer_reachable (npcm7xx_timer_write npcm7xx_timer_reset_state 0 (2 ^ 30) 0)
    ∧ ((npcm7xx_timer_write npcm7xx_timer_reset_state 0 (2 ^ 30) 0).timer 0).qtimerArmed
        = true
    ∧ ((npcm7xx_timer_write npcm7xx_timer_reset_state 0 (2 ^ 30) 0).timer 0).tcsr
        &&& NPCM7XX_TCSR_CACT = 0 :=
  ⟨npcm7xx_timer_reachable.mmio_write 0 (2 ^ 30) 0 npcm7xx_timer_reachable.reset,
    by decide, by decide⟩

/-- C2 (amended): in every reachable state every channel's read-only
counter-active bit CACT is clear (the model never sets it, so it does not
mirror whether the clock-source callback is armed), and a software write
to the control register never changes the stored CACT bit. -/
theorem npcm7xx_timer_cact_never_set (s : NPCM7xxTimerCtrlState)
    (h : npcm7xx_timer_reachable s) (i : Fin 5) (v : Nat) (now : Int) :
    (s.timer i).tcsr &&& NPCM7XX_TCSR_CACT = 0
    ∧ ((npcm7xx_timer_write_tcsr s i v now).timer i).tcsr &&& NPCM7XX_TCSR_CACT
        = (s.timer i).tcsr &&& NPCM7XX_TCSR_CACT := by
  constructor
  · exact (cact_land_eq_zero_iff _).2 (reachable_cact_clear s h i)
  · rw [show NPCM7XX_TCSR_CACT = 2 ^ 25 from rfl, Nat.and_two_pow, Nat.and_two_pow,
      write_tcsr_cact_bit]

/-- C2 witness: the amended theorem applied at the reset state, channel 0,
written value 17, virtual time 0. -/
theorem npcm7xx_timer_cact_never_set_witness :
    (npcm7xx_timer_reset_state.timer 0).tcsr &&& NPCM7XX_TCSR_CACT = 0
    ∧ ((npcm7xx_timer_write_tcsr npcm7xx_timer_reset_state 0 17 0).timer 0).tcsr
        &&& NPCM7XX_TCSR_CACT
        = (npcm7xx_timer_reset_state.timer 0).tcsr &&& NPCM7XX_TCSR_CACT :=
  npcm7xx_timer_cact_never_set npcm7xx_timer_reset_state
    npcm7xx_timer_reachable.reset 0 17 0

/-- C3 counterexample: writing 0x1234 to the watchdog control register at
offset 0x1c right after reset does not store 0x1234 in the wtcr field, so
the stores-the-value part of the claim is false. -/
theorem npcm7xx_timer_wtcr_write_not_stored :
    ¬ (npcm7xx_timer_write npcm7xx_timer_reset_state 0x1c 0x1234 0).wtcr = 0x1234 := by
  decide

/-- C3 (amended): a write of any value to the watchdog control register is
only reported as unimplemented and changes no state at all: the stored
watchdog_control register keeps its prior value and every channel
register, duration, deadline, status bit and interrupt line is
unchanged. -/
theorem npcm7xx_timer_wtcr_write_noop (s : NPCM7xxTimerCtrlState) (v : Nat)
    (now : Int) : npcm7xx_timer_write s 0x1c v now = s := rfl

/-- C9: if the QEMU timer callback for a channel runs while the channel's
counter-enable bit is clear, it is a complete no-op: the controller state
(interrupt status, every channel register, remaining duration, deadline
and interrupt line) is returned unchanged. -/
theorem npcm7xx_timer_expired_disabled_noop (s : NPCM7xxTimerCtrlState) (i : Fin 5)
    (now : Int) (h : (s.timer i).tcsr &&& NPCM7XX_TCSR_CEN = 0) :
    npcm7xx_timer_expired s i now = s := by
  simp [npcm7xx_timer_expired, h]

/-- C9 witness: the callback on channel 2 of the reset state (whose
counter-enable bit is clear) leaves the state unchanged. -/
theorem npcm7xx_timer_expired_disabled_noop_witness :
    (npcm7xx_timer_reset_state.timer 2).tcsr &&& NPCM7XX_TCSR_CEN = 0
    ∧ npcm7xx_timer_expired npcm7xx_timer_reset_state 2 7 = npcm7xx_timer_reset_state :=
  ⟨by decide, npcm7xx_timer_expired_disabled_noop npcm7xx_timer_reset_state 2 7 (by decide)⟩

theorem land_two_pow_ne_zero_iff (x n : Nat) :
    x &&& 2 ^ n ≠ 0 ↔ x.testBit n = true := by
  rw [Ne, land_two_pow_eq_zero_iff]
  simp

theorem testBit_mask32 (k : Nat) : (0xffffffff : Nat).testBit k = decide (k < 32) := by
  rw [show (0xffffffff : Nat) = 2 ^ 32 - 1 from rfl, Nat.testBit_two_pow_sub_one]

theorem compl32_testBit (m k : Nat) :
    (compl32 m).testBit k = ((decide (k < 32)).xor (m.testBit k)) := by
  rw [compl32, Nat.testBit_xor, testBit_mask32]

theorem land_compl32_self (x m : Nat) (hx : x < 2 ^ 32) (h : x &&& m = 0) :
    x &&& compl32 m = x := by
  apply Nat.eq_of_testBit_eq
  intro k
  rw [Nat.testBit_land, compl32_testBit]
  by_cases hk : k < 32
  · have h2 : (x.testBit k && m.testBit k) = false := by
      rw [← Nat.testBit_land, h, Nat.zero_testBit]
    cases hxb : x.testBit k <;> simp_all
  · have hxk : x.testBit k = false :=
      Nat.testBit_lt_two_pow
        (lt_of_lt_of_le hx (Nat.pow_le_pow_right (by norm_num) (le_of_not_lt hk)))
    simp [hxk]

/-- The conditional reserved-bit masking in the TCSR write handler is
equivalent to unconditional masking for 32-bit inputs. -/
theorem mask_if_noop (x m : Nat) (hx : x < 2 ^ 32) :
    (if x &&& m != 0 then x &&& compl32 m else x) = x &&& compl32 m := by
  split
  · rfl
  · next h =>
      rw [land_compl32_self x m hx (by simpa using h)]

theorem land_land_right_const (x : Nat) {a b c : Nat} (h : a &&& b = c) :
    (x &&& a) &&& b = x &&& c := by
  rw [Nat.and_assoc, h]

theorem check_interrupt_timer (s : NPCM7xxTimerCtrlState) (i j : Fin 5) :
    (npcm7xx_timer_check_interrupt s i).timer j =
      if j = i then
        { s.timer i with
          irqLevel := ((s.timer i).tcsr &&& NPCM7XX_TCSR_IE != 0)
            && (s.tisr &&& (1 <<< i.val) != 0) }
      else s.timer j := by
  by_cases h : j = i <;> simp [npcm7xx_timer_check_interrupt, h]

theorem start_timer (s : NPCM7xxTimerCtrlState) (i : Fin 5) (now : Int) (j : Fin 5) :
    (npcm7xx_timer_start s i now).timer j =
      if j = i then
        { s.timer i with
          expires_ns := now + (s.timer i).remaining_ns, qtimerArmed := true }
      else s.timer j := by
  by_cases h : j = i <;> simp [npcm7xx_timer_start, h]

theorem pause_timer (s : NPCM7xxTimerCtrlState) (i : Fin 5) (now : Int) (j : Fin 5) :
    (npcm7xx_timer_pause s i now).timer j =
      if j = i then
        { s.timer i with
          qtimerArmed := false, remaining_ns := (s.timer i).expires_ns - now }
      else s.timer j := by
  by_cases h : j = i <;> simp [npcm7xx_timer_pause, h]

theorem restart_timer (s : NPCM7xxTimerCtrlState) (i : Fin 5) (old_tcsr : Nat)
    (now : Int) (j : Fin 5) :
    (npcm7xx_timer_restart s i old_tcsr now).timer j =
      if j = i then
        (if old_tcsr &&& (s.timer i).tcsr &&& NPCM7XX_TCSR_CEN != 0 then
          { s.timer i with
            remaining_ns := npcm7xx_timer_count_to_ns (s.timer i) (s.timer i).ticr
            expires_ns := now + npcm7xx_timer_count_to_ns (s.timer i) (s.timer i).ticr
            qtimerArmed := true }
        else
          { s.timer i with
            remaining_ns := npcm7xx_timer_count_to_ns (s.timer i) (s.timer i).ticr })
      else s.timer j := by
  simp only [npcm7xx_timer_restart]
  split
  · rw [start_timer]
    by_cases h : j = i <;> simp_all
  · by_cases h : j = i <;> simp_all

theorem check_interrupt_tisr (s : NPCM7xxTimerCtrlState) (i : Fin 5) :
    (npcm7xx_timer_check_interrupt s i).tisr = s.tisr := rfl

theorem start_tisr (s : NPCM7xxTimerCtrlState) (i : Fin 5) (now : Int) :
    (npcm7xx_timer_start s i now).tisr = s.tisr := rfl

theorem pause_tisr (s : NPCM7xxTimerCtrlState) (i : Fin 5) (now : Int) :
    (npcm7xx_timer_pause s i now).tisr = s.tisr := rfl

theorem restart_tisr (s : NPCM7xxTimerCtrlState) (i : Fin 5) (old_tcsr : Nat)
    (now : Int) : (npcm7xx_timer_restart s i old_tcsr now).tisr = s.tisr := by
  simp only [npcm7xx_timer_restart]
  split <;> rfl

theorem land_land_eq_zero_left {x c : Nat} (h : x &&& c = 0) (y : Nat) :
    (x &&& y) &&& c = 0 := by
  apply Nat.eq_of_testBit_eq
  intro k
  have h2 : (x.testBit k && c.testBit k) = false := by
    rw [← Nat.testBit_land, h, Nat.zero_testBit]
  simp only [Nat.testBit_land, Nat.zero_testBit]
  cases hx : x.testBit k <;> cases hc : c.testBit k <;> simp_all

theorem cen_land_eq_zero_iff (x : Nat) :
    x &&& NPCM7XX_TCSR_CEN = 0 ↔ x.testBit 30 = false := by
  rw [show NPCM7XX_TCSR_CEN = 2 ^ 30 from rfl]
  exact land_two_pow_eq_zero_iff x 30

theorem cen_land_ne_zero_iff (x : Nat) :
    x &&& NPCM7XX_TCSR_CEN ≠ 0 ↔ x.testBit 30 = true := by
  rw [show NPCM7XX_TCSR_CEN = 2 ^ 30 from rfl]
  exact land_two_pow_ne_zero_iff x 30

theorem crst_land_eq_zero_iff (x : Nat) :
    x &&& NPCM7XX_TCSR_CRST = 0 ↔ x.testBit 26 = false := by
  rw [show NPCM7XX_TCSR_CRST = 2 ^ 26 from rfl]
  exact land_two_pow_eq_zero_iff x 26

theorem cact_testBit_26 : NPCM7XX_TCSR_CACT.testBit 26 = false := by decide

theorem compl32_cact_testBit_26 : (compl32 NPCM7XX_TCSR_CACT).testBit 26 = true := by
  decide

theorem compl32_rsvd_testBit_26 : (compl32 NPCM7XX_TCSR_RSVD).testBit 26 = true := by
  decide

theorem compl32_crst_testBit_26 : (compl32 NPCM7XX_TCSR_CRST).testBit 26 = false := by
  decide

/-- The CRST bit of the TCSR value stored by a TCSR write is always
clear: either it was cleared after the restart was performed, or it was
clear in the incoming value. -/
theorem stored_crst_bit (old v : Nat) :
    (npcm7xx_tcsr_stored old v).testBit 26 = false := by
  simp only [npcm7xx_tcsr_stored]
  split_ifs with h1 h2 h3 <;>
    simp_all [crst_land_eq_zero_iff, Nat.testBit_lor, Nat.testBit_land,
      cact_testBit_26, compl32_cact_testBit_26, compl32_rsvd_testBit_26,
      compl32_crst_testBit_26]

/-- C4: on a TCSR write that both requests a soft reset (CRST) and flips
the enable bit from 0 to 1, the channel is armed from the freshly
reloaded duration converted from the initial count, with the deadline set
to now plus that duration (not a stale deadline); and after any TCSR
write the stored CRST bit is 0, so it is never readable as set. -/
theorem npcm7xx_timer_crst_then_cen (s : NPCM7xxTimerCtrlState) (i : Fin 5)
    (v : Nat) (now : Int) (hv : v < 2 ^ 32) :
    ((s.timer i).tcsr &&& NPCM7XX_TCSR_CEN = 0 → v &&& NPCM7XX_TCSR_CEN ≠ 0 →
      v &&& NPCM7XX_TCSR_CRST ≠ 0 →
      ((npcm7xx_timer_write_tcsr s i v now).timer i).remaining_ns
          = npcm7xx_timer_count_to_ns ((npcm7xx_timer_write_tcsr s i v now).timer i)
              ((s.timer i).ticr)
        ∧ ((npcm7xx_timer_write_tcsr s i v now).timer i).expires_ns
          = now + npcm7xx_timer_count_to_ns ((npcm7xx_timer_write_tcsr s i v now).timer i)
              ((s.timer i).ticr)
        ∧ ((npcm7xx_timer_write_tcsr s i v now).timer i).qtimerArmed = true)
    ∧ ((npcm7xx_timer_write_tcsr s i v now).timer i).tcsr &&& NPCM7XX_TCSR_CRST = 0 := by
  constructor
  · intro h0 hc hr
    have hv1 : v &&& compl32 NPCM7XX_TCSR_RSVD < 2 ^ 32 :=
      lt_of_le_of_lt Nat.and_le_right (by decide)
    have hcen2 : (v &&& compl32 NPCM7XX_TCSR_RSVD &&& compl32 NPCM7XX_TCSR_CACT)
        &&& NPCM7XX_TCSR_CEN = v &&& NPCM7XX_TCSR_CEN := by
      rw [land_land_right_const _
            (show compl32 NPCM7XX_TCSR_CACT &&& NPCM7XX_TCSR_CEN = NPCM7XX_TCSR_CEN
              from by decide),
          land_land_right_const _
            (show compl32 NPCM7XX_TCSR_RSVD &&& NPCM7XX_TCSR_CEN = NPCM7XX_TCSR_CEN
              from by decide)]
    have hcrst2 : (v &&& compl32 NPCM7XX_TCSR_RSVD &&& compl32 NPCM7XX_TCSR_CACT)
        &&& NPCM7XX_TCSR_CRST = v &&& NPCM7XX_TCSR_CRST := by
      rw [land_land_right_const _
            (show compl32 NPCM7XX_TCSR_CACT &&& NPCM7XX_TCSR_CRST = NPCM7XX_TCSR_CRST
              from by decide),
          land_land_right_const _
            (show compl32 NPCM7XX_TCSR_RSVD &&& NPCM7XX_TCSR_CRST = NPCM7XX_TCSR_CRST
              from by decide)]
    have hxor : ((s.timer i).tcsr
        ^^^ (v &&& compl32 NPCM7XX_TCSR_RSVD &&& compl32 NPCM7XX_TCSR_CACT))
        &&& NPCM7XX_TCSR_CEN ≠ 0 := by
      rw [cen_land_ne_zero_iff, Nat.testBit_xor,
        (cen_land_eq_zero_iff _).1 h0,
        (cen_land_ne_zero_iff _).1 (hcen2 ▸ hc : _ &&& NPCM7XX_TCSR_CEN ≠ 0)]
      decide
    have c_crst : ((v &&& compl32 NPCM7XX_TCSR_RSVD &&& compl32 NPCM7XX_TCSR_CACT)
        &&& NPCM7XX_TCSR_CRST != 0) = true := by
      simp [hcrst2, hr]
    have c_cen : ((v &&& compl32 NPCM7XX_TCSR_RSVD &&& compl32 NPCM7XX_TCSR_CACT)
        &&& NPCM7XX_TCSR_CEN != 0) = true := by
      simp [hcen2, hc]
    have c_flip : (((s.timer i).tcsr
        ^^^ (v &&& compl32 NPCM7XX_TCSR_RSVD &&& compl32 NPCM7XX_TCSR_CACT))
        &&& NPCM7XX_TCSR_CEN != 0) = true := by
      simp [hxor]
    have c_nostart : ∀ y : Nat,
        (((s.timer i).tcsr &&& y) &&& NPCM7XX_TCSR_CEN != 0) = false := by
      intro y
      simp [land_land_eq_zero_left h0 y]
    have hbyte : ∀ x : Nat,
        ((x &&& compl32 NPCM7XX_TCSR_CRST) &&& 0xff) = x &&& 0xff :=
      fun x => land_land_right_const x
        (show compl32 NPCM7XX_TCSR_CRST &&& 0xff = 0xff from by decide)
    simp only [npcm7xx_timer_write_tcsr, mask_if_noop v NPCM7XX_TCSR_RSVD hv,
      mask_if_noop _ NPCM7XX_TCSR_CACT hv1, c_crst, c_cen, c_flip, if_true]
    split
    all_goals
      simp [start_timer, restart_timer, check_interrupt_timer, setTimer_timer,
        c_nostart, npcm7xx_timer_count_to_ns, npcm7xx_timer_prescaler, hbyte]
  · rw [tcsr_write_tcsr, if_pos rfl]
    exact (crst_land_eq_zero_iff _).2 (stored_crst_bit (s.timer i).tcsr v)

/-- C4 witness: applied right after reset to channel 0, with a written
value that sets CRST and CEN and a prescaler field of 3, at virtual time
100.  The hypotheses are discharged by evaluation. -/
theorem npcm7xx_timer_crst_then_cen_witness :
    (((npcm7xx_timer_write_tcsr npcm7xx_timer_reset_state 0 0x44000003 100).timer 0).remaining_ns
        = npcm7xx_timer_count_to_ns
            ((npcm7xx_timer_write_tcsr npcm7xx_timer_reset_state 0 0x44000003 100).timer 0)
            ((npcm7xx_timer_reset_state.timer 0).ticr)
      ∧ ((npcm7xx_timer_write_tcsr npcm7xx_timer_reset_state 0 0x44000003 100).timer 0).expires_ns
        = 100 + npcm7xx_timer_count_to_ns
            ((npcm7xx_timer_write_tcsr npcm7xx_timer_reset_state 0 0x44000003 100).timer 0)
            ((npcm7xx_timer_reset_state.timer 0).ticr)
      ∧ ((npcm7xx_timer_write_tcsr npcm7xx_timer_reset_state 0 0x44000003 100).timer 0).qtimerArmed
        = true)
    ∧ ((npcm7xx_timer_write_tcsr npcm7xx_timer_reset_state 0 0x44000003 100).timer 0).tcsr
        &&& NPCM7XX_TCSR_CRST = 0 :=
  ⟨(npcm7xx_timer_crst_then_cen npcm7xx_timer_reset_state 0 0x44000003 100
      (by decide)).1 (by decide) (by decide) (by decide),
    (npcm7xx_timer_crst_then_cen npcm7xx_timer_reset_state 0 0x44000003 100
      (by decide)).2⟩

theorem lor_bit_land_ne_zero (x k : Nat) : (x ||| 1 <<< k) &&& (1 <<< k) ≠ 0 := by
  rw [Nat.shiftLeft_eq, one_mul]
  rw [land_two_pow_ne_zero_iff, Nat.testBit_lor, Nat.testBit_two_pow_self]
  simp

theorem oneshot_clears_cen (x : Nat) :
    (x &&& compl32 (NPCM7XX_TCSR_CEN ||| NPCM7XX_TCSR_CACT)) &&& NPCM7XX_TCSR_CEN = 0 := by
  rw [land_land_right_const x
    (show compl32 (NPCM7XX_TCSR_CEN ||| NPCM7XX_TCSR_CACT) &&& NPCM7XX_TCSR_CEN = 0
      from by decide)]
  exact Nat.and_zero x

theorem oneshot_clears_cact (x : Nat) :
    (x &&& compl32 (NPCM7XX_TCSR_CEN ||| NPCM7XX_TCSR_CACT)) &&& NPCM7XX_TCSR_CACT = 0 := by
  rw [land_land_right_const x
    (show compl32 (NPCM7XX_TCSR_CEN ||| NPCM7XX_TCSR_CACT) &&& NPCM7XX_TCSR_CACT = 0
      from by decide)]
  exact Nat.and_zero x

theorem reached_zero_tisr (s : NPCM7xxTimerCtrlState) (i : Fin 5) (now : Int) :
    (npcm7xx_timer_reached_zero s i now).tisr = s.tisr ||| (1 <<< i.val) := by
  simp only [npcm7xx_timer_reached_zero, check_interrupt_tisr]
  split
  · split
    · rw [start_tisr]
      rfl
    · rfl
  · rfl

/-- C5: when the deadline callback fires on a channel whose enable bit is
set, the channel's bit in the controller's interrupt status becomes set;
in periodic mode the remaining duration is reloaded from the conversion
of the initial count and, the enable bit still being set, the channel is
immediately re-armed with deadline now plus that duration; in one-shot
mode the enable and counter-active bits of the control register are
cleared; and in both cases the channel's interrupt line is recomputed as
the AND of its interrupt-enable bit and its (updated) status bit. -/
theorem npcm7xx_timer_reached_zero_spec (s : NPCM7xxTimerCtrlState) (i : Fin 5)
    (now : Int) (hcen : (s.timer i).tcsr &&& NPCM7XX_TCSR_CEN ≠ 0) :
    (npcm7xx_timer_expired s i now).tisr &&& (1 <<< i.val) ≠ 0
    ∧ ((s.timer i).tcsr &&& NPCM7XX_TCSR_PERIODIC ≠ 0 →
        ((npcm7xx_timer_expired s i now).timer i).remaining_ns
            = npcm7xx_timer_count_to_ns (s.timer i) ((s.timer i).ticr)
          ∧ ((npcm7xx_timer_expired s i now).timer i).qtimerArmed = true
          ∧ ((npcm7xx_timer_expired s i now).timer i).expires_ns
            = now + npcm7xx_timer_count_to_ns (s.timer i) ((s.timer i).ticr))
    ∧ ((s.timer i).tcsr &&& NPCM7XX_TCSR_PERIODIC = 0 →
        ((npcm7xx_timer_expired s i now).timer i).tcsr &&& NPCM7XX_TCSR_CEN = 0
          ∧ ((npcm7xx_timer_expired s i now).timer i).tcsr &&& NPCM7XX_TCSR_CACT = 0)
    ∧ ((npcm7xx_timer_expired s i now).timer i).irqLevel
        = ((((npcm7xx_timer_expired s i now).timer i).tcsr &&& NPCM7XX_TCSR_IE != 0)
            && ((npcm7xx_timer_expired s i now).tisr &&& (1 <<< i.val) != 0)) := by
  have he : npcm7xx_timer_expired s i now = npcm7xx_timer_reached_zero s i now := by
    simp [npcm7xx_timer_expired, hcen]
  rw [he]
  refine ⟨?_, ?_, ?_, ?_⟩
  · rw [reached_zero_tisr]
    exact lor_bit_land_ne_zero s.tisr i.val
  · intro hp
    simp [npcm7xx_timer_reached_zero, check_interrupt_timer, start_timer,
      setTimer_timer, hp, hcen]
  · intro hp
    simp [npcm7xx_timer_reached_zero, check_interrupt_timer, start_timer,
      setTimer_timer, hp, oneshot_clears_cen, oneshot_clears_cact]
  · by_cases hp : (s.timer i).tcsr &&& NPCM7XX_TCSR_PERIODIC = 0 <;>
      simp [npcm7xx_timer_reached_zero, check_interrupt_timer, check_interrupt_tisr,
        start_timer, start_tisr, setTimer_timer, hp, hcen]

/-- C5 witness: the theorem applied to two concrete enabled channels at
virtual time 100, one in periodic mode (status bit set and re-armed) and
one in one-shot mode (enable bit cleared). -/
theorem npcm7xx_timer_reached_zero_spec_witness :
    (npcm7xx_timer_expired
        (setTimer npcm7xx_timer_reset_state 0 ⟨0x48000000, 3, 50, 20, true, false⟩)
        0 100).tisr &&& (1 <<< (0 : Fin 5).val) ≠ 0
    ∧ ((npcm7xx_timer_expired
        (setTimer npcm7xx_timer_reset_state 0 ⟨0x48000000, 3, 50, 20, true, false⟩)
        0 100).timer 0).qtimerArmed = true
    ∧ ((npcm7xx_timer_expired
        (setTimer npcm7xx_timer_reset_state 0 ⟨0x40000000, 3, 50, 20, true, false⟩)
        0 100).timer 0).tcsr &&& NPCM7XX_TCSR_CEN = 0 :=
  ⟨(npcm7xx_timer_reached_zero_spec
      (setTimer npcm7xx_timer_reset_state 0 ⟨0x48000000, 3, 50, 20, true, false⟩)
      0 100 (by decide)).1,
   ((npcm7xx_timer_reached_zero_spec
      (setTimer npcm7xx_timer_reset_state 0 ⟨0x48000000, 3, 50, 20, true, false⟩)
      0 100 (by decide)).2.1 (by decide)).2.1,
   ((npcm7xx_timer_reached_zero_spec
      (setTimer npcm7xx_timer_reset_state 0 ⟨0x40000000, 3, 50, 20, true, false⟩)
      0 100 (by decide)).2.2.1 (by decide)).1⟩

/-- MMIO byte offset of the count register TDR of each channel. -/
def npcm7xx_tdr_offset : Fin 5 → Nat
  | 0 => 0x10
  | 1 => 0x14
  | 2 => 0x30
  | 3 => 0x34
  | 4 => 0x50

/-- C6: an MMIO read of a channel's count register returns the
nanoseconds-to-count conversion of deadline minus current time when the
channel's enable bit is set, and the conversion of the stored remaining
duration when the enable bit is clear. -/
theorem npcm7xx_timer_tdr_read_live (s : NPCM7xxTimerCtrlState) (i : Fin 5)
    (now : Int) :
    ((s.timer i).tcsr &&& NPCM7XX_TCSR_CEN ≠ 0 →
      (npcm7xx_timer_read s (npcm7xx_tdr_offset i) now).1
        = npcm7xx_timer_ns_to_count (s.timer i) ((s.timer i).expires_ns - now))
    ∧ ((s.timer i).tcsr &&& NPCM7XX_TCSR_CEN = 0 →
      (npcm7xx_timer_read s (npcm7xx_tdr_offset i) now).1
        = npcm7xx_timer_ns_to_count (s.timer i) ((s.timer i).remaining_ns)) := by
  constructor <;> intro h <;> fin_cases i <;>
    simp_all [npcm7xx_timer_read, npcm7xx_timer_read_tdr, npcm7xx_tdr_offset,
      npcm7xx_tdr_index]

/-- C6 witness: the theorem applied to a concrete running channel 1 (read
computed live from the deadline) and to the stopped channel 1 of the reset
state (read computed from the stored remaining duration). -/
theorem npcm7xx_timer_tdr_read_live_witness :
    (npcm7xx_timer_read
        (setTimer npcm7xx_timer_reset_state 1 ⟨0x40000000, 3, 5000, 20, true, false⟩)
        (npcm7xx_tdr_offset 1) 100).1
      = npcm7xx_timer_ns_to_count
          ((setTimer npcm7xx_timer_reset_state 1 ⟨0x40000000, 3, 5000, 20, true, false⟩).timer 1)
          (((setTimer npcm7xx_timer_reset_state 1
              ⟨0x40000000, 3, 5000, 20, true, false⟩).timer 1).expires_ns - 100)
    ∧ (npcm7xx_timer_read npcm7xx_timer_reset_state (npcm7xx_tdr_offset 1) 100).1
      = npcm7xx_timer_ns_to_count (npcm7xx_timer_reset_state.timer 1)
          ((npcm7xx_timer_reset_state.timer 1).remaining_ns) :=
  ⟨(npcm7xx_timer_tdr_read_live
      (setTimer npcm7xx_timer_reset_state 1 ⟨0x40000000, 3, 5000, 20, true, false⟩)
      1 100).1 (by decide),
   (npcm7xx_timer_tdr_read_live npcm7xx_timer_reset_state 1 100).2 (by decide)⟩

/-- C7: pausing a running channel at time t1 stores exactly the deadline
minus t1 as the remaining duration (strictly positive by the asserted
precondition), and a subsequent start at time t2 arms the channel with
deadline t2 plus that remaining duration, which equals the original
deadline shifted forward by exactly t2 minus t1 — so no elapsed time is
double-counted. -/
theorem npcm7xx_timer_pause_resume_shift (s : NPCM7xxTimerCtrlState) (i : Fin 5)
    (t1 t2 : Int) (h : 0 < (s.timer i).expires_ns - t1) :
    ((npcm7xx_timer_pause s i t1).timer i).remaining_ns
        = (s.timer i).expires_ns - t1
    ∧ ((npcm7xx_timer_start (npcm7xx_timer_pause s i t1) i t2).timer i).expires_ns
        = t2 + ((s.timer i).expires_ns - t1)
    ∧ ((npcm7xx_timer_start (npcm7xx_timer_pause s i t1) i t2).timer i).expires_ns
        = (s.timer i).expires_ns + (t2 - t1)
    ∧ ((npcm7xx_timer_start (npcm7xx_timer_pause s i t1) i t2).timer i).qtimerArmed
        = true := by
  refine ⟨?_, ?_, ?_, ?_⟩ <;>
    simp [pause_timer, start_timer] <;> ring

/-- C7 witness: a channel with deadline 1000 paused at time 400 and
resumed at time 700: the remaining duration is 600 and the new deadline
is 1300, the original deadline shifted by 300. -/
theorem npcm7xx_timer_pause_resume_shift_witness :
    ((npcm7xx_timer_pause
        (setTimer npcm7xx_timer_reset_state 2 ⟨0x40000000, 3, 1000, 0, true, false⟩)
        2 400).timer 2).remaining_ns
      = ((setTimer npcm7xx_timer_reset_state 2
          ⟨0x40000000, 3, 1000, 0, true, false⟩).timer 2).expires_ns - 400
    ∧ ((npcm7xx_timer_start
          (npcm7xx_timer_pause
            (setTimer npcm7xx_timer_reset_state 2 ⟨0x40000000, 3, 1000, 0, true, false⟩)
            2 400) 2 700).timer 2).expires_ns
      = 700 + (((setTimer npcm7xx_timer_reset_state 2
          ⟨0x40000000, 3, 1000, 0, true, false⟩).timer 2).expires_ns - 400)
    ∧ ((npcm7xx_timer_start
          (npcm7xx_timer_pause
            (setTimer npcm7xx_timer_reset_state 2 ⟨0x40000000, 3, 1000, 0, true, false⟩)
            2 400) 2 700).timer 2).expires_ns
      = ((setTimer npcm7xx_timer_reset_state 2
          ⟨0x40000000, 3, 1000, 0, true, false⟩).timer 2).expires_ns + (700 - 400)
    ∧ ((npcm7xx_timer_start
          (npcm7xx_timer_pause
            (setTimer npcm7xx_timer_reset_state 2 ⟨0x40000000, 3, 1000, 0, true, false⟩)
            2 400) 2 700).timer 2).qtimerArmed = true :=
  npcm7xx_timer_pause_resume_shift
    (setTimer npcm7xx_timer_reset_state 2 ⟨0x40000000, 3, 1000, 0, true, false⟩)
    2 400 700 (by decide)

/-- Converting a 32-bit count to nanoseconds and back is exact: the
multiplications and truncating divisions use the same two positive
factors, and the product stays far below the int64_t range. -/
theorem count_roundtrip_eq (t : NPCM7xxTimer) (c : Nat) (hc : c < 2 ^ 32) :
    npcm7xx_timer_ns_to_count t (npcm7xx_timer_count_to_ns t c) = c := by
  have hq : (0 : Nat) < NANOSECONDS_PER_SECOND / NPCM7XX_TIMER_REF_HZ := by
    norm_num [NANOSECONDS_PER_SECOND, NPCM7XX_TIMER_REF_HZ]
  have hp : 0 < npcm7xx_timer_prescaler t := Nat.succ_pos _
  unfold npcm7xx_timer_ns_to_count npcm7xx_timer_count_to_ns int64_to_uint32
  rw [show ((c : Int) * ((NANOSECONDS_PER_SECOND / NPCM7XX_TIMER_REF_HZ : Nat) : Int)
        * ((npcm7xx_timer_prescaler t : Nat) : Int))
      = (((c * npcm7xx_timer_prescaler t) * (NANOSECONDS_PER_SECOND / NPCM7XX_TIMER_REF_HZ)
          : Nat) : Int) from by push_cast; ring]
  rw [← Int.ofNat_tdiv, Nat.mul_div_cancel _ hq, ← Int.ofNat_tdiv,
    Nat.mul_div_cancel _ hp]
  rw [show Int.emod (c : Int) (2 ^ 32) = (c : Int) % (2 ^ 32) from rfl,
    Int.emod_eq_of_lt (by positivity) (by exact_mod_cast hc)]
  exact Int.toNat_ofNat c

/-- C8: for every channel configuration (hence every prescaler field) and
every 32-bit count c, converting c to a nanosecond duration and back
under the same prescaler yields a value at most c, and the loss measured
in nanoseconds is at most one reference-clock period scaled by the
prescaler divisor (the conversions are in fact exact inverses here). -/
theorem npcm7xx_timer_count_roundtrip (t : NPCM7xxTimer) (c : Nat)
    (hc : c < 2 ^ 32) :
    npcm7xx_timer_ns_to_count t (npcm7xx_timer_count_to_ns t c) ≤ c
    ∧ npcm7xx_timer_count_to_ns t c
        - npcm7xx_timer_count_to_ns t
            (npcm7xx_timer_ns_to_count t (npcm7xx_timer_count_to_ns t c))
      ≤ ((NANOSECONDS_PER_SECOND / NPCM7XX_TIMER_REF_HZ : Nat) : Int)
          * ((npcm7xx_timer_prescaler t : Nat) : Int) := by
  rw [count_roundtrip_eq t c hc]
  refine ⟨le_refl c, ?_⟩
  rw [sub_self]
  positivity

/-- C8 witness: the theorem applied to a channel with prescaler field 7
and count 123456. -/
theorem npcm7xx_timer_count_roundtrip_witness :
    npcm7xx_timer_ns_to_count ⟨7, 0, 0, 0, false, false⟩
        (npcm7xx_timer_count_to_ns ⟨7, 0, 0, 0, false, false⟩ 123456) ≤ 123456
    ∧ npcm7xx_timer_count_to_ns ⟨7, 0, 0, 0, false, false⟩ 123456
        - npcm7xx_timer_count_to_ns ⟨7, 0, 0, 0, false, false⟩
            (npcm7xx_timer_ns_to_count ⟨7, 0, 0, 0, false, false⟩
              (npcm7xx_timer_count_to_ns ⟨7, 0, 0, 0, false, false⟩ 123456))
      ≤ ((NANOSECONDS_PER_SECOND / NPCM7XX_TIMER_REF_HZ : Nat) : Int)
          * ((npcm7xx_timer_prescaler ⟨7, 0, 0, 0, false, false⟩ : Nat) : Int) :=
  npcm7xx_timer_count_roundtrip ⟨7, 0, 0, 0, false, false⟩ 123456 (by decide)

/-- Register indices decoded by the MMIO handlers. -/
def npcm7xx_timer_mapped (reg : Nat) : Bool :=
  match reg with
  | 0 | 1 | 2 | 3 | 4 | 5 | 6 | 7 | 8 | 9 | 10 | 11 | 12 | 13 | 16 | 18 | 20 => true
  | _ => false

/-- C10: an MMIO read never modifies the device state — the state
component of the read result is the incoming state for every offset — and
a read of an unmapped offset returns 0. -/
theorem npcm7xx_timer_read_pure (s : NPCM7xxTimerCtrlState) (offset : Nat)
    (now : Int) :
    (npcm7xx_timer_read s offset now).2 = s
    ∧ (npcm7xx_timer_mapped (offset / 4) = false →
        (npcm7xx_timer_read s offset now).1 = 0) := by
  constructor
  · simp only [npcm7xx_timer_read]
    split <;> rfl
  · intro h
    simp only [npcm7xx_timer_read]
    split <;> first | rfl | simp_all [npcm7xx_timer_mapped]

/-- C10 witness: reading the unmapped offset 0x38 of the reset state at
time 0 returns 0 and leaves the state unchanged. -/
theorem npcm7xx_timer_read_pure_witness :
    (npcm7xx_timer_read npcm7xx_timer_reset_state 0x38 0).2 = npcm7xx_timer_reset_state
    ∧ (npcm7xx_timer_read npcm7xx_timer_reset_state 0x38 0).1 = 0 :=
  ⟨(npcm7xx_timer_read_pure npcm7xx_timer_reset_state 0x38 0).1,
   (npcm7xx_timer_read_pure npcm7xx_timer_reset_state 0x38 0).2 (by decide)⟩

/-- C1: a write to the shared status register TISR clears exactly the
status bits set in the written value and touches no channel state, but it
does not recompute any interrupt output line.  In particular, on a
concrete state where channel 0 has its interrupt-enable bit set, status
bit 0 pending and its line high, writing 1 to TISR clears the status bit
— making the claimed AND of interrupt-enable and status false — yet the
stored line level remains high, because the handler never calls the
interrupt recomputation. -/
theorem npcm7xx_timer_tisr_write_no_irq_update :
    (∀ (s : NPCM7xxTimerCtrlState) (v : Nat) (now : Int) (j : Fin 5),
        (npcm7xx_timer_write s 0x18 v now).tisr = s.tisr &&& compl32 (v % 2 ^ 32)
        ∧ (npcm7xx_timer_write s 0x18 v now).timer j = s.timer j)
    ∧ (npcm7xx_timer_write
        { setTimer npcm7xx_timer_reset_state 0 ⟨0x20000005, 0, 0, 0, false, true⟩ with
          tisr := 1 } 0x18 1 0).tisr = 0
    ∧ ((npcm7xx_timer_write
        { setTimer npcm7xx_timer_reset_state 0 ⟨0x20000005, 0, 0, 0, false, true⟩ with
          tisr := 1 } 0x18 1 0).timer 0).irqLevel = true
    ∧ (((npcm7xx_timer_write
          { setTimer npcm7xx_timer_reset_state 0 ⟨0x20000005, 0, 0, 0, false, true⟩ with
            tisr := 1 } 0x18 1 0).timer 0).tcsr &&& NPCM7XX_TCSR_IE != 0
        && ((npcm7xx_timer_write
          { setTimer npcm7xx_timer_reset_state 0 ⟨0x20000005, 0, 0, 0, false, true⟩ with
            tisr := 1 } 0x18 1 0).tisr &&& (1 <<< (0 : Fin 5).val) != 0)) = false :=
  ⟨fun _ _ _ _ => ⟨rfl, rfl⟩, by decide, by decide, by decide⟩
